import Mathlib

set_option maxHeartbeats 1000000

/-! Verification of the hand-gesture core of the pose-detection sandbox:
landmark geometry utilities (`dist`, `dist3D`), the gesture classifier
(`isFist`, `isPeace`), the orientation estimator (`getFistOrientation`),
the 3-D pose estimator (`getFistRotation`), the depth heuristic
(`estimateHandDepth`) and the interaction predicates (`handsClose`,
`isHandNearCylinder`).  Every JS number appearing in a concrete run is a
rational, so landmark coordinates are modelled as rationals; distances
(which take square roots) live in the real numbers. -/

namespace PoseDetection

/-- A hand landmark: normalized x/y image coordinates and an optional
relative depth z (`z` is absent on plain 2-D landmarks). -/
structure Landmark where
  x : ℚ
  y : ℚ
  z : Option ℚ
  deriving DecidableEq

/-- A hand is exactly 21 landmarks, indexed by the fixed anatomical
convention (wrist = 0, thumb 1-4, index 5-8, middle 9-12, ring 13-16,
pinky 17-20). -/
abbrev Hand := Fin 21 → Landmark

/-- Models the JS expression `(p.z || 0)`: an absent z is read as 0. -/
def zVal (p : Landmark) : ℚ := p.z.getD 0

/-- Squared 2-D distance, in exact rational arithmetic. -/
def distSq (a b : Landmark) : ℚ := (a.x - b.x) ^ 2 + (a.y - b.y) ^ 2

/-- utils.js `dist`: `Math.hypot(a.x - b.x, a.y - b.y)`, i.e. the square
root of `(a.x - b.x)^2 + (a.y - b.y)^2`. -/
noncomputable def dist (a b : Landmark) : ℝ := Real.sqrt ((distSq a b : ℚ) : ℝ)

/-- Squared 3-D distance with absent z read as 0, in exact rational
arithmetic. -/
def distSq3 (a b : Landmark) : ℚ :=
  (a.x - b.x) ^ 2 + (a.y - b.y) ^ 2 + (zVal a - zVal b) ^ 2

/-- Source `dist3D`: `Math.sqrt(dx*dx + dy*dy + dz*dz)` with
`dz = (a.z || 0) - (b.z || 0)`. -/
noncomputable def dist3D (a b : Landmark) : ℝ := Real.sqrt ((distSq3 a b : ℚ) : ℝ)

lemma distSq_nonneg (a b : Landmark) : 0 ≤ distSq a b := by
  unfold distSq; positivity

lemma dist_nonneg2 (a b : Landmark) : 0 ≤ dist a b := Real.sqrt_nonneg _

/-- A strict comparison of `dist` against a rational bound reduces to an
exact rational comparison of squares. -/
lemma dist_lt_iff (a b : Landmark) (c : ℚ) :
    dist a b < (c : ℝ) ↔ 0 < c ∧ distSq a b < c ^ 2 := by
  constructor
  · intro h
    have hc : (0 : ℝ) < (c : ℝ) := lt_of_le_of_lt (Real.sqrt_nonneg _) h
    have hc' : 0 < c := by exact_mod_cast hc
    have h2 := (Real.sqrt_lt' hc).mp h
    exact ⟨hc', by exact_mod_cast h2⟩
  · rintro ⟨hc, h⟩
    have hc' : (0 : ℝ) < (c : ℝ) := by exact_mod_cast hc
    exact (Real.sqrt_lt' hc').mpr (by exact_mod_cast h)

/-- A strict lower bound on `dist` by a rational reduces to an exact
rational comparison of squares. -/
lemma lt_dist_iff (a b : Landmark) (c : ℚ) :
    (c : ℝ) < dist a b ↔ c < 0 ∨ c ^ 2 < distSq a b := by
  rcases lt_or_le c 0 with h | h
  · have hc : (c : ℝ) < 0 := by exact_mod_cast h
    simp only [h, true_or, iff_true]
    exact lt_of_lt_of_le hc (Real.sqrt_nonneg _)
  · have h' : (0 : ℝ) ≤ (c : ℝ) := by exact_mod_cast h
    unfold dist
    rw [Real.lt_sqrt h']
    constructor
    · intro hlt
      right
      exact_mod_cast hlt
    · rintro (hneg | hlt)
      · exact absurd hneg (not_lt.mpr h)
      · exact_mod_cast hlt

/-- A non-strict comparison of `dist3D` against a rational bound reduces
to an exact rational comparison of squares. -/
lemma dist3D_le_iff (a b : Landmark) (c : ℚ) :
    dist3D a b ≤ (c : ℝ) ↔ 0 ≤ c ∧ distSq3 a b ≤ c ^ 2 := by
  unfold dist3D
  rw [Real.sqrt_le_iff]
  constructor <;> rintro ⟨h1, h2⟩
  · exact ⟨by exact_mod_cast h1, by exact_mod_cast h2⟩
  · exact ⟨by exact_mod_cast h1, by exact_mod_cast h2⟩

/-- Evaluation lemma: when the squared distance is the square of a
nonnegative rational, `dist` equals that rational. -/
lemma dist_eq_rat (a b : Landmark) (c : ℚ) (hc : 0 ≤ c) (h : distSq a b = c ^ 2) :
    dist a b = (c : ℝ) := by
  unfold dist
  rw [h]
  push_cast
  exact Real.sqrt_sq (by exact_mod_cast hc)

/-- Evaluation lemma: when the squared 3-D distance is the square of a
nonnegative rational, `dist3D` equals that rational. -/
lemma dist3D_eq_rat (a b : Landmark) (c : ℚ) (hc : 0 ≤ c) (h : distSq3 a b = c ^ 2) :
    dist3D a b = (c : ℝ) := by
  unfold dist3D
  rw [h]
  push_cast
  exact Real.sqrt_sq (by exact_mod_cast hc)

instance decDistLt (a b : Landmark) (c : ℚ) : Decidable (dist a b < (c : ℝ)) :=
  decidable_of_iff _ (dist_lt_iff a b c).symm

instance decLtDist (a b : Landmark) (c : ℚ) : Decidable ((c : ℝ) < dist a b) :=
  decidable_of_iff _ (lt_dist_iff a b c).symm

instance decDist3DLe (a b : Landmark) (c : ℚ) : Decidable (dist3D a b ≤ (c : ℝ)) :=
  decidable_of_iff _ (dist3D_le_iff a b c).symm

/-- handDetection.js `isFist`: the four non-thumb fingertip indices. -/
def tipIds : List (Fin 21) := [8, 12, 16, 20]

/-- The `forEach` loop of `isFist`: increments `folded` for every tip id
whose tip is within 0.05 of the landmark two indices below it. -/
noncomputable def foldedCount (hand : Hand) : ℕ :=
  tipIds.foldl
    (fun folded id =>
      if dist (hand id) (hand (id - 2)) < ((0.05 : ℚ) : ℝ) then folded + 1 else folded)
    0

/-- handDetection.js `isFist`: `folded >= 3`. -/
def isFist (hand : Hand) : Prop := 3 ≤ foldedCount hand

instance decIsFist (hand : Hand) : Decidable (isFist hand) := by
  unfold isFist foldedCount tipIds
  infer_instance

/-- handDetection.js `isPeace`: index and middle fingers extended
(tip-to-MCP above 0.09), ring and pinky folded (tip within 0.05 of the
landmark two indices below the tip). -/
def isPeace (hand : Hand) : Prop :=
  dist (hand 8) (hand 5) > ((0.09 : ℚ) : ℝ) ∧
    dist (hand 12) (hand 9) > ((0.09 : ℚ) : ℝ) ∧
    dist (hand 16) (hand 14) < ((0.05 : ℚ) : ℝ) ∧
    dist (hand 20) (hand 18) < ((0.05 : ℚ) : ℝ)

instance decIsPeace (hand : Hand) : Decidable (isPeace hand) := by
  unfold isPeace
  infer_instance

/-- handDetection.js `handsClose`: wrist-to-wrist 2-D distance strictly
below 0.25. -/
def handsClose (handA handB : Hand) : Prop :=
  dist (handA 0) (handB 0) < ((0.25 : ℚ) : ℝ)

instance decHandsClose (handA handB : Hand) : Decidable (handsClose handA handB) := by
  unfold handsClose
  infer_instance

/-- handDetection.js `getFistOrientation`: 4-way compass from the
wrist-to-middle-MCP displacement. -/
def getFistOrientation (hand : Hand) : String :=
  let wrist := hand 0
  let middleKnuckle := hand 9
  let dx := middleKnuckle.x - wrist.x
  let dy := middleKnuckle.y - wrist.y
  if |dx| > |dy| then
    if dx > 0 then "right" else "left"
  else if dy < -0.05 then "up"
  else "unknown"

/-- A pitch/yaw/roll rotation, packed as `{x, y, z}` exactly as the
source returns it (`x` holds pitch, `y` yaw, `z` roll). -/
structure Rot3 where
  x : ℝ
  y : ℝ
  z : ℝ

/-- Model of `Math.atan2(y, x)` for real arguments (signed floating-point zeros
are not modelled; `atan2 0 0 = 0` as in JS). -/
noncomputable def atan2 (y x : ℝ) : ℝ :=
  if 0 < x then Real.arctan (y / x)
  else if x < 0 ∧ 0 ≤ y then Real.arctan (y / x) + Real.pi
  else if x < 0 ∧ y < 0 then Real.arctan (y / x) - Real.pi
  else if x = 0 ∧ 0 < y then Real.pi / 2
  else if x = 0 ∧ y < 0 then -(Real.pi / 2)
  else 0

/-- Forward-vector x component of `getFistRotation`:
`middleKnuckle.x - wrist.x`. -/
def forwardX (hand : Hand) : ℚ := (hand 9).x - (hand 0).x

/-- Forward-vector y component: `middleKnuckle.y - wrist.y`. -/
def forwardY (hand : Hand) : ℚ := (hand 9).y - (hand 0).y

/-- Forward-vector z component:
`(middleKnuckle.z || 0) - (wrist.z || 0)`. -/
def forwardZ (hand : Hand) : ℚ := zVal (hand 9) - zVal (hand 0)

/-- The `forwardLength` of `getFistRotation`:
`Math.sqrt(forwardX*forwardX + forwardY*forwardY + forwardZ*forwardZ)`. -/
noncomputable def forwardLength (hand : Hand) : ℝ :=
  Real.sqrt ((((forwardX hand) ^ 2 + (forwardY hand) ^ 2 + (forwardZ hand) ^ 2 : ℚ)) : ℝ)

/-- Source `getFistRotation` (unnamed source, `part_000` lines 120-170): Euler
angles from the wrist, middle-finger MCP and thumb-tip landmarks, with
the degenerate fallback `{x: 0, y: 0, z: 0}` when the forward vector is
shorter than 0.001.  (The source also reads `indexKnuckle = hand[5]` and
a `rightZ` component but never uses them.) -/
noncomputable def getFistRotation (hand : Hand) : Rot3 :=
  if forwardLength hand < 0.001 then ⟨0, 0, 0⟩
  else
    let fnX := ((forwardX hand : ℚ) : ℝ) / forwardLength hand
    let fnY := ((forwardY hand : ℚ) : ℝ) / forwardLength hand
    let fnZ := ((forwardZ hand : ℚ) : ℝ) / forwardLength hand
    let yaw := atan2 fnX fnZ
    let pitch := -(Real.arcsin fnY)
    let rightX : ℝ := (((hand 4).x - (hand 0).x : ℚ) : ℝ)
    let rightY : ℝ := (((hand 4).y - (hand 0).y : ℚ) : ℝ)
    let rightLength := Real.sqrt (rightX ^ 2 + rightY ^ 2)
    let roll :=
      if rightLength > 0.001 then
        atan2 (rightY / rightLength) (rightX / rightLength) - Real.pi / 2
      else 0
    ⟨pitch, yaw, roll⟩

/-- The `handSize` of `estimateHandDepth`: `dist(wrist, middleKnuckle)`. -/
noncomputable def handSize (hand : Hand) : ℝ := dist (hand 0) (hand 9)

/-- The `normalizedSize` of `estimateHandDepth`:
`Math.max(0.05, Math.min(0.2, handSize))`. -/
noncomputable def normalizedSize (hand : Hand) : ℝ :=
  max 0.05 (min 0.2 (handSize hand))

/-- The `baseDepth` constant of `estimateHandDepth`. -/
def baseDepth : ℝ := -2.5

/-- The `depthRange` constant of `estimateHandDepth`. -/
def depthRange : ℝ := 2.0

/-- Source `estimateHandDepth` (unnamed source, `part_001` lines 95-109):
`baseDepth - (normalizedSize - 0.05) * (depthRange / 0.15)`. -/
noncomputable def estimateHandDepth (hand : Hand) : ℝ :=
  baseDepth - (normalizedSize hand - 0.05) * (depthRange / 0.15)

/-- Written from the spec words for the refinement check of claim C3:
`clamp(v, lo, hi)` in its usual reading `min hi (max lo v)`. -/
noncomputable def clampSpec (v lo hi : ℝ) : ℝ := min hi (max lo v)

/-- Source `isHandNearCylinder` (unnamed source, `part_001` lines 164-168):
false when either position is absent, otherwise
`dist3D(handPos3D, cylinderPos3D) <= grabThreshold`. -/
def isHandNearCylinder (handPos3D cylinderPos3D : Option Landmark)
    (grabThreshold : ℚ) : Prop :=
  match handPos3D, cylinderPos3D with
  | none, _ => False
  | _, none => False
  | some hp, some cp => dist3D hp cp ≤ (grabThreshold : ℝ)

instance decIsHandNearCylinder (handPos3D cylinderPos3D : Option Landmark)
    (grabThreshold : ℚ) : Decidable (isHandNearCylinder handPos3D cylinderPos3D grabThreshold) := by
  rcases handPos3D with _ | hp
  · exact isFalse (by simp [isHandNearCylinder])
  · rcases cylinderPos3D with _ | cp
    · exact isFalse (by simp [isHandNearCylinder])
    · exact decidable_of_iff (dist3D hp cp ≤ (grabThreshold : ℝ)) (by simp [isHandNearCylinder])

/-- Source `isHandNearCylinder` called without a third argument, i.e. with the
JS default `grabThreshold = 0.8`. -/
def isHandNearCylinderDefault (handPos3D cylinderPos3D : Option Landmark) : Prop :=
  isHandNearCylinder handPos3D cylinderPos3D 0.8

/-- The landmark at the image origin, with no depth. -/
def origin : Landmark := ⟨0, 0, none⟩

/-- A hand whose 21 landmarks all sit at the origin. -/
def zeroHand : Hand := fun _ => origin

/-- A hand whose middle-finger MCP is 0.2 away from the wrist (all other
landmarks at the origin): apparent hand size 0.2. -/
def bigHand : Hand := fun i => if i = 9 then ⟨0.2, 0, none⟩ else origin

/-- A concrete hand that is simultaneously a peace sign and a fist:
index tip sits on the index PIP (folded for `isFist`) but 0.1 away from
the index MCP (extended for `isPeace`); ring and pinky tips sit on the
landmarks two below them, satisfying both predicates at once. -/
def pcHand : Hand := fun i =>
  if i = 5 then ⟨0, 0, none⟩
  else if i = 6 then ⟨0.1, 0, none⟩
  else if i = 8 then ⟨0.1, 0, none⟩
  else if i = 9 then ⟨0.3, 0, none⟩
  else if i = 12 then ⟨0.4, 0, none⟩
  else if i = 14 then ⟨0.5, 0, none⟩
  else if i = 16 then ⟨0.5, 0, none⟩
  else if i = 18 then ⟨0.6, 0, none⟩
  else if i = 20 then ⟨0.6, 0, none⟩
  else ⟨0.9, 0.9, none⟩

/-- A hand with every landmark at x = 0.25 on the image x axis. -/
def quarterHand : Hand := fun _ => ⟨0.25, 0, none⟩

/-- A hand with every landmark at x = 0.24 on the image x axis. -/
def nearHand : Hand := fun _ => ⟨0.24, 0, none⟩

/-- A hand agreeing with `zeroHand` everywhere except at the wrist. -/
def mixedHand : Hand := fun i => if i = 0 then ⟨0.9, 0.9, none⟩ else origin

/-- A 2-D landmark with absent z. -/
def lmA : Landmark := ⟨1, 2, none⟩

/-- A landmark carrying an explicit zero z. -/
def lmB : Landmark := ⟨3, 5, some 0⟩

/-- A 3-D position at the world origin. -/
def pA : Landmark := ⟨0, 0, some 0⟩

/-- A 3-D position exactly 0.8 away from `pA`. -/
def pB : Landmark := ⟨0.8, 0, some 0⟩

/-- The landmark indices actually read by `isFist`: the four fingertip
ids 8/12/16/20 and, for each, the id two below it. -/
def usedIdx : List (Fin 21) := [6, 8, 10, 12, 14, 16, 18, 20]

/-- Claim C3: for every hand, `estimateHandDepth` returns exactly
`-2.5 - (clamp(distance2D(wrist, middleMCP), 0.05, 0.20) - 0.05) * (2.0 / 0.15)`,
where wrist is landmark 0 and middleMCP is landmark 9. -/
theorem C3_estimateHandDepth_formula (hand : Hand) :
    estimateHandDepth hand =
      -2.5 - (clampSpec (dist (hand 0) (hand 9)) 0.05 0.2 - 0.05) * (2.0 / 0.15) := by
  unfold estimateHandDepth baseDepth depthRange normalizedSize handSize clampSpec
  rw [max_min_distrib_left, max_eq_right (by norm_num : (0.05 : ℝ) ≤ 0.2)]

/-- Claim C6: whenever the forward vector from wrist to middle-finger MCP
(absent z read as 0) has magnitude strictly below 0.001 — in particular
when the two landmarks coincide — `getFistRotation` returns exactly the
zero rotation. -/
theorem C6_getFistRotation_degenerate (hand : Hand)
    (h : forwardLength hand < 0.001) : getFistRotation hand = ⟨0, 0, 0⟩ := by
  unfold getFistRotation
  rw [if_pos h]

/-- Witness for C6: the all-at-origin hand has a zero forward vector and
gets the zero rotation. -/
theorem C6_witness :
    forwardLength zeroHand < 0.001 ∧ getFistRotation zeroHand = ⟨0, 0, 0⟩ := by
  have h : forwardLength zeroHand < 0.001 := by
    have e : forwardLength zeroHand = 0 := by
      unfold forwardLength forwardX forwardY forwardZ zeroHand origin zVal
      norm_num [Real.sqrt_zero]
    rw [e]
    norm_num
  exact ⟨h, C6_getFistRotation_degenerate zeroHand h⟩

/-- Claim C9: when both landmarks have z equal to 0 or absent (i.e. both
read as 0), `dist3D` coincides with the 2-D `dist`. -/
theorem C9_dist3D_eq_dist (a b : Landmark) (h1 : zVal a = 0) (h2 : zVal b = 0) :
    dist3D a b = dist a b := by
  unfold dist3D dist distSq3 distSq
  rw [h1, h2]
  norm_num

/-- Witness for C9: a landmark with absent z and one with an explicit
zero z have equal 2-D and 3-D distances. -/
theorem C9_witness :
    zVal lmA = 0 ∧ zVal lmB = 0 ∧ dist3D lmA lmB = dist lmA lmB := by
  have h1 : zVal lmA = 0 := rfl
  have h2 : zVal lmB = 0 := rfl
  exact ⟨h1, h2, C9_dist3D_eq_dist lmA lmB h1 h2⟩

/-- Claim C7: `isHandNearCylinder` is false whenever either position is
absent, regardless of the threshold; with both positions present it
holds iff the 3-D distance is at most the threshold (inclusive at exact
equality); and the default-threshold variant uses 0.8. -/
theorem C7_isHandNearCylinder_spec :
    (∀ (c : Option Landmark) (t : ℚ), ¬ isHandNearCylinder none c t) ∧
    (∀ (h : Option Landmark) (t : ℚ), ¬ isHandNearCylinder h none t) ∧
    (∀ (hp cp : Landmark) (t : ℚ),
      isHandNearCylinder (some hp) (some cp) t ↔ dist3D hp cp ≤ (t : ℝ)) ∧
    (∀ h c : Option Landmark,
      isHandNearCylinderDefault h c ↔ isHandNearCylinder h c 0.8) := by
  refine ⟨?_, ?_, ?_, ?_⟩
  · intro c t hf
    cases c <;> exact hf
  · intro h t hf
    cases h <;> exact hf
  · intro hp cp t
    exact Iff.rfl
  · intro h c
    exact Iff.rfl

/-- Witness for C7: absent positions are rejected at threshold 3, two
points exactly 0.8 apart are accepted at threshold 0.8 (inclusive), and
the default variant agrees with threshold 0.8. -/
theorem C7_witness :
    ¬ isHandNearCylinder none (some pB) 3 ∧
    ¬ isHandNearCylinder (some pA) none 3 ∧
    isHandNearCylinder (some pA) (some pB) 0.8 ∧
    (isHandNearCylinderDefault (some pA) (some pB) ↔
      isHandNearCylinder (some pA) (some pB) 0.8) := by
  have hd : dist3D pA pB = ((4/5 : ℚ) : ℝ) := by
    refine dist3D_eq_rat pA pB (4/5) (by norm_num) ?_
    unfold distSq3 pA pB zVal
    norm_num
  refine ⟨C7_isHandNearCylinder_spec.1 (some pB) 3,
    C7_isHandNearCylinder_spec.2.1 (some pA) 3,
    (C7_isHandNearCylinder_spec.2.2.1 pA pB 0.8).mpr ?_,
    C7_isHandNearCylinder_spec.2.2.2 (some pA) (some pB)⟩
  rw [hd]
  norm_num

/-- Claim C8: `handsClose A B` holds iff the wrist-to-wrist 2-D distance
is strictly below 0.25; wrists exactly 0.25 apart are not close, wrists
0.24 apart are. -/
theorem C8_handsClose_spec :
    (∀ handA handB : Hand,
      handsClose handA handB ↔ dist (handA 0) (handB 0) < 0.25) ∧
    (∀ handA handB : Hand,
      dist (handA 0) (handB 0) = 0.25 → ¬ handsClose handA handB) ∧
    (∀ handA handB : Hand,
      dist (handA 0) (handB 0) = 0.24 → handsClose handA handB) := by
  have main : ∀ handA handB : Hand,
      handsClose handA handB ↔ dist (handA 0) (handB 0) < 0.25 := by
    intro handA handB
    unfold handsClose
    rw [show (((0.25 : ℚ)) : ℝ) = (0.25 : ℝ) by norm_num]
  refine ⟨main, ?_, ?_⟩
  · intro handA handB h hc
    rw [main handA handB, h] at hc
    exact lt_irrefl _ hc
  · intro handA handB h
    rw [main handA handB, h]
    norm_num

/-- Witness for C8: hands with wrists exactly 0.25 apart are not close,
hands with wrists 0.24 apart are close. -/
theorem C8_witness :
    ¬ handsClose zeroHand quarterHand ∧ handsClose zeroHand nearHand := by
  have h25 : dist (zeroHand 0) (quarterHand 0) = 0.25 := by
    have := dist_eq_rat (zeroHand 0) (quarterHand 0) (1/4) (by norm_num)
      (by unfold distSq zeroHand quarterHand origin; norm_num)
    rw [this]
    norm_num
  have h24 : dist (zeroHand 0) (nearHand 0) = 0.24 := by
    have := dist_eq_rat (zeroHand 0) (nearHand 0) (6/25) (by norm_num)
      (by unfold distSq zeroHand nearHand origin; norm_num)
    rw [this]
    norm_num
  exact ⟨C8_handsClose_spec.2.1 zeroHand quarterHand h25,
    C8_handsClose_spec.2.2 zeroHand nearHand h24⟩

/-- Claim C4: `getFistOrientation` decides, first match winning, on the
displacement dx, dy from wrist (index 0) to middle-finger MCP (index 9):
if `|dx| > |dy|` it returns "right" when `dx > 0` and "left" otherwise;
else if `dy < -0.05` it returns "up"; else "unknown" — and those four
labels are the only possible outputs. -/
theorem C4_getFistOrientation_cases (hand : Hand) :
    (getFistOrientation hand = "right" ∨ getFistOrientation hand = "left" ∨
      getFistOrientation hand = "up" ∨ getFistOrientation hand = "unknown") ∧
    (getFistOrientation hand = "right" ↔
      |(hand 9).x - (hand 0).x| > |(hand 9).y - (hand 0).y| ∧
        (hand 9).x - (hand 0).x > 0) ∧
    (getFistOrientation hand = "left" ↔
      |(hand 9).x - (hand 0).x| > |(hand 9).y - (hand 0).y| ∧
        ¬((hand 9).x - (hand 0).x > 0)) ∧
    (getFistOrientation hand = "up" ↔
      ¬(|(hand 9).x - (hand 0).x| > |(hand 9).y - (hand 0).y|) ∧
        (hand 9).y - (hand 0).y < -0.05) ∧
    (getFistOrientation hand = "unknown" ↔
      ¬(|(hand 9).x - (hand 0).x| > |(hand 9).y - (hand 0).y|) ∧
        ¬((hand 9).y - (hand 0).y < -0.05)) := by
  simp only [getFistOrientation]
  split_ifs with hA hB hC
  · exact ⟨Or.inl rfl, iff_of_true rfl ⟨hA, hB⟩,
      iff_of_false (by decide) (fun hx => hx.2 hB),
      iff_of_false (by decide) (fun hx => hx.1 hA),
      iff_of_false (by decide) (fun hx => hx.1 hA)⟩
  · exact ⟨Or.inr (Or.inl rfl), iff_of_false (by decide) (fun hx => hB hx.2),
      iff_of_true rfl ⟨hA, hB⟩,
      iff_of_false (by decide) (fun hx => hx.1 hA),
      iff_of_false (by decide) (fun hx => hx.1 hA)⟩
  · exact ⟨Or.inr (Or.inr (Or.inl rfl)), iff_of_false (by decide) (fun hx => hA hx.1),
      iff_of_false (by decide) (fun hx => hA hx.1),
      iff_of_true rfl ⟨hA, hC⟩,
      iff_of_false (by decide) (fun hx => hx.2 hC)⟩
  · exact ⟨Or.inr (Or.inr (Or.inr rfl)), iff_of_false (by decide) (fun hx => hA hx.1),
      iff_of_false (by decide) (fun hx => hA hx.1),
      iff_of_false (by decide) (fun hx => hC hx.2),
      iff_of_true rfl ⟨hA, hC⟩⟩

/-- Claim C5: `isFist` holds iff at least 3 of the 4 non-thumb fingers
are folded, where the finger with tip index t in 8/12/16/20 is folded
iff the 2-D distance between landmark t and landmark t-2 is strictly
below 0.05. -/
theorem C5_isFist_iff (hand : Hand) :
    isFist hand ↔
      ((dist (hand 8) (hand 6) < 0.05 ∧ dist (hand 12) (hand 10) < 0.05 ∧
          dist (hand 16) (hand 14) < 0.05) ∨
       (dist (hand 8) (hand 6) < 0.05 ∧ dist (hand 12) (hand 10) < 0.05 ∧
          dist (hand 20) (hand 18) < 0.05) ∨
       (dist (hand 8) (hand 6) < 0.05 ∧ dist (hand 16) (hand 14) < 0.05 ∧
          dist (hand 20) (hand 18) < 0.05) ∨
       (dist (hand 12) (hand 10) < 0.05 ∧ dist (hand 16) (hand 14) < 0.05 ∧
          dist (hand 20) (hand 18) < 0.05)) := by
  unfold isFist foldedCount tipIds
  simp only [List.foldl_cons, List.foldl_nil,
    show ((8 : Fin 21) - 2) = 6 from rfl, show ((12 : Fin 21) - 2) = 10 from rfl,
    show ((16 : Fin 21) - 2) = 14 from rfl, show ((20 : Fin 21) - 2) = 18 from rfl,
    show (((0.05 : ℚ)) : ℝ) = (0.05 : ℝ) from by norm_num]
  by_cases f8 : dist (hand 8) (hand 6) < (0.05 : ℝ) <;>
  by_cases f12 : dist (hand 12) (hand 10) < (0.05 : ℝ) <;>
  by_cases f16 : dist (hand 16) (hand 14) < (0.05 : ℝ) <;>
  by_cases f20 : dist (hand 20) (hand 18) < (0.05 : ℝ) <;>
    simp [f8, f12, f16, f20]

/-- Counterexample to claim C2 as stated: `pcHand` satisfies `isPeace`
and `isFist` at the same time, so the two predicates are not mutually
exclusive. -/
theorem C2_counterexample : isPeace pcHand ∧ isFist pcHand := by
  have p0 : pcHand 5 = ⟨0, 0, none⟩ := rfl
  have p6 : pcHand 6 = ⟨0.1, 0, none⟩ := rfl
  have p8 : pcHand 8 = ⟨0.1, 0, none⟩ := rfl
  have p9 : pcHand 9 = ⟨0.3, 0, none⟩ := rfl
  have p10 : pcHand 10 = ⟨0.9, 0.9, none⟩ := rfl
  have p12 : pcHand 12 = ⟨0.4, 0, none⟩ := rfl
  have p14 : pcHand 14 = ⟨0.5, 0, none⟩ := rfl
  have p16 : pcHand 16 = ⟨0.5, 0, none⟩ := rfl
  have p18 : pcHand 18 = ⟨0.6, 0, none⟩ := rfl
  have p20 : pcHand 20 = ⟨0.6, 0, none⟩ := rfl
  constructor
  · unfold isPeace
    rw [p0, p8, p9, p12, p14, p16, p18, p20]
    refine ⟨?_, ?_, ?_, ?_⟩
    · rw [gt_iff_lt, lt_dist_iff]
      norm_num [distSq]
    · rw [gt_iff_lt, lt_dist_iff]
      norm_num [distSq]
    · rw [dist_lt_iff]
      norm_num [distSq]
    · rw [dist_lt_iff]
      norm_num [distSq]
  · unfold isFist foldedCount tipIds
    simp only [List.foldl_cons, List.foldl_nil,
      show ((8 : Fin 21) - 2) = 6 from rfl, show ((12 : Fin 21) - 2) = 10 from rfl,
      show ((16 : Fin 21) - 2) = 14 from rfl, show ((20 : Fin 21) - 2) = 18 from rfl,
      p6, p8, p10, p12, p14, p16, p18, p20, dist_lt_iff]
    norm_num [distSq]

/-- Amended claim C2: the peace and fist predicates are not mutually
exclusive — a hand exists on which both hold. -/
theorem C2_not_mutually_exclusive : ∃ hand : Hand, isPeace hand ∧ isFist hand := by
  refine ⟨pcHand, ?_, ?_⟩
  · have p0 : pcHand 5 = ⟨0, 0, none⟩ := rfl
    have p8 : pcHand 8 = ⟨0.1, 0, none⟩ := rfl
    have p9 : pcHand 9 = ⟨0.3, 0, none⟩ := rfl
    have p12 : pcHand 12 = ⟨0.4, 0, none⟩ := rfl
    have p14 : pcHand 14 = ⟨0.5, 0, none⟩ := rfl
    have p16 : pcHand 16 = ⟨0.5, 0, none⟩ := rfl
    have p18 : pcHand 18 = ⟨0.6, 0, none⟩ := rfl
    have p20 : pcHand 20 = ⟨0.6, 0, none⟩ := rfl
    unfold isPeace
    rw [p0, p8, p9, p12, p14, p16, p18, p20]
    refine ⟨?_, ?_, ?_, ?_⟩
    · rw [gt_iff_lt, lt_dist_iff]
      norm_num [distSq]
    · rw [gt_iff_lt, lt_dist_iff]
      norm_num [distSq]
    · rw [dist_lt_iff]
      norm_num [distSq]
    · rw [dist_lt_iff]
      norm_num [distSq]
  · have p6 : pcHand 6 = ⟨0.1, 0, none⟩ := rfl
    have p8 : pcHand 8 = ⟨0.1, 0, none⟩ := rfl
    have p10 : pcHand 10 = ⟨0.9, 0.9, none⟩ := rfl
    have p12 : pcHand 12 = ⟨0.4, 0, none⟩ := rfl
    have p14 : pcHand 14 = ⟨0.5, 0, none⟩ := rfl
    have p16 : pcHand 16 = ⟨0.5, 0, none⟩ := rfl
    have p18 : pcHand 18 = ⟨0.6, 0, none⟩ := rfl
    have p20 : pcHand 20 = ⟨0.6, 0, none⟩ := rfl
    unfold isFist foldedCount tipIds
    simp only [List.foldl_cons, List.foldl_nil,
      show ((8 : Fin 21) - 2) = 6 from rfl, show ((12 : Fin 21) - 2) = 10 from rfl,
      show ((16 : Fin 21) - 2) = 14 from rfl, show ((20 : Fin 21) - 2) = 18 from rfl,
      p6, p8, p10, p12, p14, p16, p18, p20, dist_lt_iff]
    norm_num [distSq]

/-- Claim C10: `isFist` reads only the landmarks at indices 6, 8, 10,
12, 14, 16, 18 and 20 — two hands agreeing on those eight landmarks get
the same fist classification. -/
theorem C10_isFist_noninterference (h1 h2 : Hand)
    (h : ∀ i ∈ usedIdx, h1 i = h2 i) : isFist h1 ↔ isFist h2 := by
  have e6 := h 6 (by decide)
  have e8 := h 8 (by decide)
  have e10 := h 10 (by decide)
  have e12 := h 12 (by decide)
  have e14 := h 14 (by decide)
  have e16 := h 16 (by decide)
  have e18 := h 18 (by decide)
  have e20 := h 20 (by decide)
  unfold isFist foldedCount tipIds
  simp only [List.foldl_cons, List.foldl_nil,
    show ((8 : Fin 21) - 2) = 6 from rfl, show ((12 : Fin 21) - 2) = 10 from rfl,
    show ((16 : Fin 21) - 2) = 14 from rfl, show ((20 : Fin 21) - 2) = 18 from rfl,
    e6, e8, e10, e12, e14, e16, e18, e20]

/-- Witness for C10: `zeroHand` and `mixedHand` differ at the wrist but
agree on the eight indices `isFist` reads, so their classifications
agree. -/
theorem C10_witness : isFist zeroHand ↔ isFist mixedHand :=
  C10_isFist_noninterference zeroHand mixedHand (by decide)

lemma handSize_zeroHand : handSize zeroHand = 0 := by
  unfold handSize
  have e : dist (zeroHand 0) (zeroHand 9) = ((0 : ℚ) : ℝ) := by
    refine dist_eq_rat _ _ 0 le_rfl ?_
    unfold distSq zeroHand origin
    norm_num
  rw [e]
  norm_num

lemma handSize_bigHand : handSize bigHand = 0.2 := by
  unfold handSize
  have e : dist (bigHand 0) (bigHand 9) = ((1/5 : ℚ) : ℝ) := by
    refine dist_eq_rat _ _ (1/5) (by norm_num) ?_
    have b0 : bigHand 0 = origin := rfl
    have b9 : bigHand 9 = ⟨0.2, 0, none⟩ := rfl
    rw [b0, b9]
    norm_num [distSq, origin]
  rw [e]
  norm_num

lemma normalizedSize_zeroHand : normalizedSize zeroHand = 0.05 := by
  unfold normalizedSize
  rw [handSize_zeroHand, min_eq_right (by norm_num : (0 : ℝ) ≤ 0.2),
    max_eq_left (by norm_num : (0 : ℝ) ≤ 0.05)]

lemma normalizedSize_bigHand : normalizedSize bigHand = 0.2 := by
  unfold normalizedSize
  rw [handSize_bigHand, min_self, max_eq_right (by norm_num : (0.05 : ℝ) ≤ 0.2)]

lemma depth_zeroHand : estimateHandDepth zeroHand = -2.5 := by
  unfold estimateHandDepth baseDepth depthRange
  rw [normalizedSize_zeroHand]
  norm_num

lemma depth_bigHand : estimateHandDepth bigHand = -4.5 := by
  unfold estimateHandDepth baseDepth depthRange
  rw [normalizedSize_bigHand]
  norm_num

/-- Counterexample to claim C1 as stated: `zeroHand` has the smaller
clamped hand size (0.05 against 0.2 for `bigHand`), yet its depth -2.5
is strictly greater than `bigHand`'s depth -4.5 — `estimateHandDepth` is
not monotonically non-decreasing in the clamped hand size. -/
theorem C1_counterexample :
    normalizedSize zeroHand ≤ normalizedSize bigHand ∧
      ¬ (estimateHandDepth zeroHand ≤ estimateHandDepth bigHand) := by
  rw [normalizedSize_zeroHand, normalizedSize_bigHand, depth_zeroHand, depth_bigHand]
  norm_num

/-- Amended claim C1: `estimateHandDepth` is monotonically non-increasing
in the clamped hand size — a larger apparent hand size yields a depth
farther down toward -4.5, a smaller apparent size a depth closer to
-2.5 — and every depth lies in [-4.5, -2.5]. -/
theorem C1_depth_antitone :
    (∀ h1 h2 : Hand, normalizedSize h1 ≤ normalizedSize h2 →
      estimateHandDepth h2 ≤ estimateHandDepth h1) ∧
    (∀ hand : Hand, -4.5 ≤ estimateHandDepth hand ∧ estimateHandDepth hand ≤ -2.5) := by
  constructor
  · intro h1 h2 hle
    unfold estimateHandDepth baseDepth depthRange
    nlinarith [hle]
  · intro hand
    unfold estimateHandDepth baseDepth depthRange normalizedSize
    have hlo : (0.05 : ℝ) ≤ max 0.05 (min 0.2 (handSize hand)) := le_max_left _ _
    have hhi : max (0.05 : ℝ) (min 0.2 (handSize hand)) ≤ 0.2 :=
      max_le (by norm_num) (min_le_left _ _)
    constructor <;> nlinarith

/-- Witness for the amended claim C1, at the concrete hands `zeroHand`
(clamped size 0.05) and `bigHand` (clamped size 0.2). -/
theorem C1_witness :
    normalizedSize zeroHand ≤ normalizedSize bigHand ∧
      estimateHandDepth bigHand ≤ estimateHandDepth zeroHand := by
  have hle : normalizedSize zeroHand ≤ normalizedSize bigHand := by
    rw [normalizedSize_zeroHand, normalizedSize_bigHand]
    norm_num
  exact ⟨hle, C1_depth_antitone.1 zeroHand bigHand hle⟩

end PoseDetection
